import Mathlib

/-!
Shallow embedding of the arc-based odometry core (`src/lemlib/odom/arc.cpp`,
namespace `lemlib`): the sensor-set calibration routine `ArcOdom::calibrate`,
the two heading-delta helpers `calcDeltaTheta`, and the pose update
`ArcOdom::update`.

Floating point is modelled by exact rationals.  `std::sin` and `std::cos` are
passed in as function parameters `sn cs : ℚ → ℚ`, so every definition stays
executable; theorems quantify over them where the trigonometric values do not
matter and witnesses instantiate them concretely.

The `Pose`, `TrackingWheel`, `Gyro` and `Timer` collaborators are declared in
headers whose sources are not part of this repository snapshot; their state and
operations are modelled from the specification (each such definition carries a
`Modelled from the spec:` doc comment).
-/

/-- Modelled from the spec: `Pose {x, y, heading}` (heading stored as `theta`,
radians, not normalized).  `pose.cpp` is not in the snapshot. -/
structure Pose where
  x : ℚ
  y : ℚ
  theta : ℚ
deriving DecidableEq, Repr

/-- Modelled from the spec: `rotate(angle)` rotates the `(x, y)` components by
`angle` radians counter-clockwise and leaves the heading unchanged.  The sine
and cosine used by the implementation are the parameters `sn` and `cs`. -/
def Pose.rotate (p : Pose) (sn cs : ℚ → ℚ) (angle : ℚ) : Pose :=
  ⟨p.x * cs angle - p.y * sn angle, p.x * sn angle + p.y * cs angle, p.theta⟩

/-- Modelled from the spec: pose addition is the component-wise sum (this is
the `pose += ...` accumulation step of `ArcOdom::update`). -/
def Pose.add (p q : Pose) : Pose :=
  ⟨p.x + q.x, p.y + q.y, p.theta + q.theta⟩

/-- Modelled from the spec: a `TrackingWheel` (LinearSensor) holds a fixed
signed `offset`, a cumulative distance `dist`, and the `lastDist` marker of the
previous consuming read; `resetFails` is the (hardware-determined) outcome
`reset()` reports during calibration (`true` = failure, as in
`if (it->reset())`).  `trackingWheel.cpp` is not in the snapshot. -/
structure TrackingWheel where
  offset : ℚ
  dist : ℚ
  lastDist : ℚ
  resetFails : Bool
deriving DecidableEq, Repr

/-- Modelled from the spec: `getDistanceDelta(consume)` returns the distance
travelled since the previous consuming read and, when `consume` is true,
advances the `lastDist` marker; with `consume = false` the sensor state is
untouched. -/
def TrackingWheel.getDistanceDelta (t : TrackingWheel) (consume : Bool) :
    ℚ × TrackingWheel :=
  (t.dist - t.lastDist, if consume then { t with lastDist := t.dist } else t)

/-- The state change of a consuming `getDistanceDelta()` read. -/
def TrackingWheel.consume (t : TrackingWheel) : TrackingWheel :=
  (t.getDistanceDelta true).2

/-- Modelled from the spec: the observable calibration state of a `Gyro`
(HeadingSensor): its hardware `port` plus the `isCalibrating()` and
`isCalibrated()` flags. -/
structure GyroC where
  port : ℕ
  calibrating : Bool
  calibrated : Bool
deriving DecidableEq, Repr

/-- Embeds the `for (auto it = v.begin(); it != v.end(); it++) if (p(*it))
v.erase(it);` pattern used three times by `ArcOdom::calibrate` (arc.cpp lines
32-37, 40-45, 59-65).  After `erase(it)` the element that shifted into the
erased slot is passed over by the subsequent `it++`, so it is kept without ever
being tested.  (When the erased element was the last one the C++ iterator walks
past `end()`; the model has the traversal stop there, and no theorem below
depends on that case.) -/
def eraseWhere (p : α → Bool) : List α → List α
  | [] => []
  | x :: xs =>
    if p x then
      match xs with
      | [] => []
      | y :: ys => y :: eraseWhere p ys
    else x :: eraseWhere p xs

/-- The tracking-wheel phase of `ArcOdom::calibrate` (arc.cpp lines 32-45):
each visited wheel is `reset()`; on reported failure it is erased in place.
Both the vertical and the horizontal loop are instances of this function. -/
def calibrateTrackers (ts : List TrackingWheel) : List TrackingWheel :=
  eraseWhere TrackingWheel.resetFails ts

/-- The gyro eviction loop at the end of `ArcOdom::calibrate` (arc.cpp lines
59-65), run after the 3000 ms polling budget has expired: every gyro whose
`isCalibrated()` is false is warned about and erased in place. -/
def evictUncalibrated (gs : List GyroC) : List GyroC :=
  eraseWhere (fun g => !g.calibrated) gs

/-- The gyro polling loop of `ArcOdom::calibrate` (arc.cpp lines 50-56):
`while (!timer.isDone()) { body; pros::delay(10); }` with `Timer timer(3000)`.
Timer and delay are modelled from the spec: the timer is done once 3000 ms
have elapsed and each `pros::delay(10)` advances time by 10 ms.  The loop body
(re-issuing `calibrate()` to gyros that are neither calibrating nor
calibrated, together with any hardware progress) is the parameter `step`.
Returns the final gyro states and the number of iterations executed. -/
def pollLoop (step : List GyroC → List GyroC) (elapsed : ℕ)
    (gs : List GyroC) : List GyroC × ℕ :=
  if elapsed < 3000 then
    let r := pollLoop step (elapsed + 10) (step gs)
    (r.1, r.2 + 1)
  else (gs, 0)
termination_by 3000 - elapsed
decreasing_by simp_wf; omega

/-- The estimator state: the pose plus the three sensor collections
(`ArcOdom`).  Within one `update()` cycle each gyro is read exactly once by
`getRotationDelta()` (a consuming read), so the cycle is determined by the
list `gyroDeltas` of the values those reads return. -/
structure ArcOdom where
  pose : Pose
  verticals : List TrackingWheel
  horizontals : List TrackingWheel
  gyroDeltas : List ℚ
deriving DecidableEq, Repr

/-- `calcDeltaTheta(TrackingWheel&, TrackingWheel&)` (arc.cpp lines 77-81):
the difference of the two non-consuming distance-delta reads divided by the
difference of the offsets.  Returns the value together with the sensor states
after the two `getDistanceDelta(false)` calls. -/
def calcDeltaTheta (t1 t2 : TrackingWheel) : ℚ × TrackingWheel × TrackingWheel :=
  let r1 := t1.getDistanceDelta false
  let r2 := t2.getDistanceDelta false
  let numerator := r1.1 - r2.1
  let denominator := t1.offset - t2.offset
  (numerator / denominator, r1.2, r2.2)

/-- `calcDeltaTheta(std::vector<std::shared_ptr<Gyro>>&)` (arc.cpp lines
91-95): accumulates `getRotationDelta() / gyros.size()` over the gyros. -/
def calcDeltaThetaGyros (deltas : List ℚ) : ℚ :=
  deltas.foldl (fun acc d => acc + d / (deltas.length : ℚ)) 0

/-- The heading resolution at the top of `ArcOdom::update` (arc.cpp lines
111-126): starting from `theta = pose.theta`, add the gyro average if any gyro
is present, else the two-wheel delta of the first two horizontal wheels if
there are at least two, else of the first two vertical wheels; `none` is the
error return ("not enough sensors to calculate heading"). -/
def resolveTheta (o : ArcOdom) : Option ℚ :=
  if o.gyroDeltas.length > 0 then
    some (o.pose.theta + calcDeltaThetaGyros o.gyroDeltas)
  else
    match o.horizontals with
    | t1 :: t2 :: _ => some (o.pose.theta + (calcDeltaTheta t1 t2).1)
    | _ =>
      match o.verticals with
      | t1 :: t2 :: _ => some (o.pose.theta + (calcDeltaTheta t1 t2).1)
      | _ => none

/-- One local-axis accumulation loop of `ArcOdom::update` (arc.cpp lines
136-147): for each tracker, `radius = (deltaTheta == 0) ? delta : delta /
deltaTheta + offset`, and `sinDTheta2 * radius / n` is added, where `n` is the
divisor the source wrote for that loop (`horizontals.size()` in both loops).
The deltas read are the consuming `getDistanceDelta()` values; each tracker is
read once, so the values equal the pre-consumption deltas. -/
def localAccum (sinDTheta2 deltaTheta : ℚ) (n : ℕ)
    (ts : List TrackingWheel) : ℚ :=
  ts.foldl
    (fun acc t =>
      let radius :=
        if deltaTheta = 0 then t.dist - t.lastDist
        else (t.dist - t.lastDist) / deltaTheta + t.offset
      acc + sinDTheta2 * radius / (n : ℚ))
    0

/-- The local displacement `Pose local(localX, localY, deltaTheta)` built by
`ArcOdom::update` (arc.cpp lines 133-148), including the source's divisor
`horizontals.size()` in BOTH loops. -/
def localPose (sn : ℚ → ℚ) (o : ArcOdom) (deltaTheta : ℚ) : Pose :=
  let sinDTheta2 := if deltaTheta = 0 then 1 else 2 * sn (deltaTheta / 2)
  ⟨localAccum sinDTheta2 deltaTheta o.horizontals.length o.horizontals,
   localAccum sinDTheta2 deltaTheta o.horizontals.length o.verticals,
   deltaTheta⟩

/-- `ArcOdom::update` (arc.cpp lines 110-152).  Returns the new estimator
state together with the error flag (`true` exactly when the "not enough
sensors" error was logged and the update aborted). -/
def update (sn cs : ℚ → ℚ) (o : ArcOdom) : ArcOdom × Bool :=
  match resolveTheta o with
  | none => (o, true)
  | some theta =>
    let deltaTheta := theta - o.pose.theta
    let avgTheta := o.pose.theta + deltaTheta / 2
    let lcl := localPose sn o deltaTheta
    ({ o with
        pose := o.pose.add (lcl.rotate sn cs avgTheta),
        horizontals := o.horizontals.map TrackingWheel.consume,
        verticals := o.verticals.map TrackingWheel.consume },
      false)

/-! ## Helper lemmas and concrete scenarios -/

/-- A list of length at most one is empty or a singleton. -/
lemma short_list {α : Type _} (l : List α) (h : l.length < 2) :
    l = [] ∨ ∃ a, l = [a] := by
  cases hx : l with
  | nil => exact Or.inl rfl
  | cons a t =>
    cases ht : t with
    | nil => exact Or.inr ⟨a, rfl⟩
    | cons b u => rw [hx, ht] at h; simp at h; omega

lemma foldl_add_div (c : ℚ) : ∀ (l : List ℚ) (acc : ℚ),
    l.foldl (fun a d => a + d / c) acc = acc + l.sum / c
  | [], acc => by simp
  | x :: xs, acc => by
    rw [List.foldl_cons, foldl_add_div c xs (acc + x / c), List.sum_cons,
      add_div, add_assoc]

/-- The gyro fold of `calcDeltaTheta(gyros)` computes the arithmetic mean. -/
lemma calcDeltaThetaGyros_eq_mean (l : List ℚ) :
    calcDeltaThetaGyros l = l.sum / (l.length : ℚ) := by
  rw [calcDeltaThetaGyros, foldl_add_div, zero_add]

/-- When at least one gyro is present, heading resolution takes the gyro
branch. -/
lemma resolveTheta_gyros (o : ArcOdom) (hg : o.gyroDeltas ≠ []) :
    resolveTheta o = some (o.pose.theta + calcDeltaThetaGyros o.gyroDeltas) := by
  rw [resolveTheta, if_pos]
  exact List.length_pos.mpr hg

/-- On a successful cycle the stored heading becomes the resolved `theta`. -/
lemma update_theta (sn cs : ℚ → ℚ) (o : ArcOdom) (theta : ℚ)
    (h : resolveTheta o = some theta) :
    (update sn cs o).1.pose.theta = theta := by
  simp only [update, h]
  show o.pose.theta + (theta - o.pose.theta) = theta
  ring

/-- Zero sine and unit cosine: the exact values of `std::sin`/`std::cos` at
angle 0, used by the concrete straight-line scenarios below. -/
def sn0 : ℚ → ℚ := fun _ => 0

/-- See `sn0`. -/
def cs1 : ℚ → ℚ := fun _ => 1

/-- Scenario for C2: one gyro reporting a zero rotation delta, two horizontal
wheels (offsets 1 and -1) each 3 units since last read, one vertical wheel
(offset 0) 5 units since last read, pose at the origin. -/
def oC2 : ArcOdom :=
  ⟨⟨0, 0, 0⟩, [⟨0, 5, 0, false⟩], [⟨1, 3, 0, false⟩, ⟨-1, 3, 0, false⟩], [0]⟩

/-- Scenario for C8: every tracking wheel reports the same nonzero delta
`d = 4` (one horizontal at offset 2, two verticals at offsets 1 and -1) and
the heading delta resolves to 0 (one gyro reporting 0), pose at the origin. -/
def oC8 : ArcOdom :=
  ⟨⟨0, 0, 0⟩, [⟨1, 4, 0, false⟩, ⟨-1, 4, 0, false⟩], [⟨2, 4, 0, false⟩], [0]⟩

/-- Scenario for C9: a gyro-plus-vertical-wheel configuration with no
horizontal wheels — one gyro reporting 0, one vertical wheel (offset 0) that
moved 5 units, pose at the origin. -/
def oC9 : ArcOdom := ⟨⟨0, 0, 0⟩, [⟨0, 5, 0, false⟩], [], [0]⟩

/-! ## Claims -/

/-- C1: FALSIFIED BY THE CODE.  Three wheels at offsets 1, 2, 3 where the
first two fail `reset()`: the claim says the surviving collection is exactly
the complement (only the offset-3 wheel).  The code erases the offset-1 wheel,
and the `it++` following the erase skips the offset-2 wheel, which survives
without ever having been reset. -/
theorem C1_calibrate_skips_failed_tracker :
    calibrateTrackers [⟨1, 0, 0, true⟩, ⟨2, 0, 0, true⟩, ⟨3, 0, 0, false⟩]
        = [⟨2, 0, 0, true⟩, ⟨3, 0, 0, false⟩]
      ∧ (calibrateTrackers [⟨1, 0, 0, true⟩, ⟨2, 0, 0, true⟩, ⟨3, 0, 0, false⟩]).any
          TrackingWheel.resetFails = true := by
  decide

/-- C2: FALSIFIED BY THE CODE.  In `oC2` the heading delta is 0 and the chord
factor is 1, so each local axis should be the simple average of its own
group's raw deltas: x = 3 and y = 5.  The code divides the vertical (local y)
contributions by `horizontals.size() = 2` instead of `verticals.size() = 1`,
producing y = 5/2. -/
theorem C2_forward_axis_divided_by_lateral_count :
    (update sn0 cs1 oC2).1.pose = ⟨3, 5/2, 0⟩ := by
  norm_num [update, resolveTheta, calcDeltaThetaGyros, localPose, localAccum,
    Pose.rotate, Pose.add, oC2, sn0, cs1]

/-- C3: with zero gyros and fewer than two wheels in each group, `update()`
logs the insufficient-sensors error and returns with the whole estimator
state — in particular the pose — unchanged. -/
theorem C3_insufficient_sensors_noop (sn cs : ℚ → ℚ) (o : ArcOdom)
    (hg : o.gyroDeltas = []) (hh : o.horizontals.length < 2)
    (hv : o.verticals.length < 2) :
    update sn cs o = (o, true) := by
  rcases short_list o.horizontals hh with hH | ⟨a, hH⟩ <;>
    rcases short_list o.verticals hv with hV | ⟨b, hV⟩ <;>
      simp [update, resolveTheta, hg, hH, hV]

/-- Witness for C3 at a concrete estimator state with one wheel per group. -/
theorem C3_insufficient_sensors_noop_witness :
    update sn0 cs1 ⟨⟨1, 2, 3⟩, [⟨0, 5, 0, false⟩], [⟨1, 2, 0, false⟩], []⟩
      = (⟨⟨1, 2, 3⟩, [⟨0, 5, 0, false⟩], [⟨1, 2, 0, false⟩], []⟩, true) :=
  C3_insufficient_sensors_noop sn0 cs1 _ rfl (by decide) (by decide)

/-- C4: heading-source priority.  With any gyro present the cycle's heading
delta is the arithmetic mean of the gyro rotation deltas, whatever the wheel
groups hold; with no gyros and at least two horizontal wheels it is the
two-wheel formula on the first two horizontal wheels; with no gyros and fewer
than two horizontal wheels it is the two-wheel formula on the first two
vertical wheels. -/
theorem C4_heading_priority (sn cs : ℚ → ℚ) (o : ArcOdom) :
    (o.gyroDeltas ≠ [] →
      (update sn cs o).1.pose.theta
        = o.pose.theta + o.gyroDeltas.sum / (o.gyroDeltas.length : ℚ))
    ∧ (o.gyroDeltas = [] → ∀ t1 t2 rest, o.horizontals = t1 :: t2 :: rest →
      (update sn cs o).1.pose.theta = o.pose.theta + (calcDeltaTheta t1 t2).1)
    ∧ (o.gyroDeltas = [] → o.horizontals.length < 2 →
      ∀ t1 t2 rest, o.verticals = t1 :: t2 :: rest →
      (update sn cs o).1.pose.theta = o.pose.theta + (calcDeltaTheta t1 t2).1) := by
  refine ⟨fun hg => ?_, fun hg t1 t2 rest hH => ?_, fun hg hlen t1 t2 rest hV => ?_⟩
  · rw [update_theta sn cs o _ (resolveTheta_gyros o hg), calcDeltaThetaGyros_eq_mean]
  · have hres : resolveTheta o = some (o.pose.theta + (calcDeltaTheta t1 t2).1) := by
      simp [resolveTheta, hg, hH]
    rw [update_theta sn cs o _ hres]
  · have hres : resolveTheta o = some (o.pose.theta + (calcDeltaTheta t1 t2).1) := by
      rcases short_list o.horizontals hlen with hH | ⟨a, hH⟩ <;>
        simp [resolveTheta, hg, hH, hV]
    rw [update_theta sn cs o _ hres]

/-- Witness for C4: one gyro reporting 2 and one reporting 4 dominate a pair
of horizontal wheels; the stored heading moves by the mean of the gyro
deltas. -/
theorem C4_heading_priority_witness :
    (update sn0 cs1 ⟨⟨0, 0, 7⟩, [], [⟨1, 3, 0, false⟩, ⟨-1, 9, 0, false⟩], [2, 4]⟩).1.pose.theta
      = (⟨⟨0, 0, 7⟩, [], [⟨1, 3, 0, false⟩, ⟨-1, 9, 0, false⟩], [2, 4]⟩ : ArcOdom).pose.theta
        + ([2, 4] : List ℚ).sum / (([2, 4] : List ℚ).length : ℚ) :=
  (C4_heading_priority sn0 cs1 _).1 (by decide)

/-- C5: FALSIFIED BY THE CODE.  At budget expiry the gyros on ports 1 and 2
are still uncalibrated and the gyro on port 3 is calibrated: the claim says
exactly the uncalibrated ones are removed, leaving only port 3.  The eviction
loop erases port 1 and the `it++` after the erase skips port 2, so an
uncalibrated gyro survives. -/
theorem C5_gyro_eviction_skips_uncalibrated :
    evictUncalibrated [⟨1, false, false⟩, ⟨2, false, false⟩, ⟨3, false, true⟩]
        = [⟨2, false, false⟩, ⟨3, false, true⟩]
      ∧ (evictUncalibrated [⟨1, false, false⟩, ⟨2, false, false⟩, ⟨3, false, true⟩]).any
          (fun g => !g.calibrated) = true := by
  decide

/-- C6: the two-wheel heading delta is the difference of the (unconsumed)
distance deltas over the difference of the offsets, and neither sensor's
last-read marker is advanced by the computation. -/
theorem C6_two_wheel_delta_formula (t1 t2 : TrackingWheel)
    (_hoff : t1.offset ≠ t2.offset) :
    (calcDeltaTheta t1 t2).1
        = ((t1.dist - t1.lastDist) - (t2.dist - t2.lastDist))
          / (t1.offset - t2.offset)
      ∧ (calcDeltaTheta t1 t2).2.1 = t1
      ∧ (calcDeltaTheta t1 t2).2.2 = t2 :=
  ⟨rfl, rfl, rfl⟩

/-- Witness for C6 at wheels with offsets 1 and 3. -/
theorem C6_two_wheel_delta_formula_witness :
    (calcDeltaTheta ⟨1, 7, 1, false⟩ ⟨3, 2, 0, false⟩).1
        = (((7 : ℚ) - 1) - ((2 : ℚ) - 0)) / ((1 : ℚ) - 3)
      ∧ (calcDeltaTheta ⟨1, 7, 1, false⟩ ⟨3, 2, 0, false⟩).2.1
          = ⟨1, 7, 1, false⟩
      ∧ (calcDeltaTheta ⟨1, 7, 1, false⟩ ⟨3, 2, 0, false⟩).2.2
          = ⟨3, 2, 0, false⟩ :=
  C6_two_wheel_delta_formula ⟨1, 7, 1, false⟩ ⟨3, 2, 0, false⟩ (by decide)

/-- C7: on every successful cycle the new pose is the old pose plus the local
displacement `(localX, localY, deltaTheta)` rotated by the midpoint heading
`pose.theta + deltaTheta / 2`, and the stored heading grows by exactly
`deltaTheta`. -/
theorem C7_pose_accumulates_rotated_local (sn cs : ℚ → ℚ) (o : ArcOdom)
    (theta : ℚ) (h : resolveTheta o = some theta) :
    (update sn cs o).1.pose
        = o.pose.add ((localPose sn o (theta - o.pose.theta)).rotate sn cs
            (o.pose.theta + (theta - o.pose.theta) / 2))
      ∧ (update sn cs o).1.pose.theta
        = o.pose.theta + (theta - o.pose.theta) := by
  constructor
  · simp only [update, h]
  · simp only [update, h]
    rfl

/-- Scenario for C7's witness: a gyro reporting 3 with one vertical wheel. -/
def oC7w : ArcOdom := ⟨⟨1, 2, 5⟩, [⟨2, 6, 1, false⟩], [], [3]⟩

/-- The heading `resolveTheta` yields on `oC7w`. -/
def thetaC7w : ℚ := oC7w.pose.theta + calcDeltaThetaGyros oC7w.gyroDeltas

/-- Witness for C7 at `oC7w`. -/
theorem C7_pose_accumulates_rotated_local_witness :
    (update sn0 cs1 oC7w).1.pose
        = oC7w.pose.add ((localPose sn0 oC7w (thetaC7w - oC7w.pose.theta)).rotate
            sn0 cs1 (oC7w.pose.theta + (thetaC7w - oC7w.pose.theta) / 2))
      ∧ (update sn0 cs1 oC7w).1.pose.theta
        = oC7w.pose.theta + (thetaC7w - oC7w.pose.theta) :=
  C7_pose_accumulates_rotated_local sn0 cs1 oC7w thetaC7w rfl

/-- C8: FALSIFIED BY THE CODE.  In `oC8` every wheel reports the same delta
`d = 4` and the heading delta resolves to 0, so per the claim both local axes
should advance by exactly 4 (heading unchanged).  The chord factor is indeed
taken as 1 and each radius as the raw delta, but the vertical (local y) sum is
divided by `horizontals.size() = 1` instead of `verticals.size() = 2`, so the
pose advances by 8 on y instead of 4. -/
theorem C8_straight_line_y_not_d :
    (update sn0 cs1 oC8).1.pose = ⟨4, 8, 0⟩ := by
  norm_num [update, resolveTheta, calcDeltaThetaGyros, localPose, localAccum,
    Pose.rotate, Pose.add, oC8, sn0, cs1]

/-- C9: FALSIFIED BY THE CODE.  In the gyro-plus-vertical-wheel configuration
`oC9` the lateral (horizontal) group is empty, yet the forward-axis
accumulation divides by `horizontals.size() = 0`: a division by zero (IEEE
infinity at runtime; in this rational model division by zero reads 0, so the
5-unit vertical displacement is lost and the pose stays at the origin). -/
theorem C9_forward_axis_divides_by_zero :
    oC9.horizontals = [] ∧ oC9.verticals ≠ []
      ∧ (update sn0 cs1 oC9).1.pose = ⟨0, 0, 0⟩ := by
  refine ⟨rfl, by decide, ?_⟩
  norm_num [update, resolveTheta, calcDeltaThetaGyros, localPose, localAccum,
    Pose.rotate, Pose.add, oC9, sn0, cs1]

lemma pollLoop_pos (step : List GyroC → List GyroC) (e : ℕ) (gs : List GyroC)
    (h : e < 3000) :
    pollLoop step e gs
      = ((pollLoop step (e + 10) (step gs)).1,
         (pollLoop step (e + 10) (step gs)).2 + 1) := by
  rw [pollLoop]
  simp [h]

lemma pollLoop_neg (step : List GyroC → List GyroC) (e : ℕ) (gs : List GyroC)
    (h : ¬ e < 3000) : pollLoop step e gs = (gs, 0) := by
  rw [pollLoop]
  simp [h]

lemma pollLoop_iterations_indep (e : ℕ)
    (step₁ step₂ : List GyroC → List GyroC) (gs₁ gs₂ : List GyroC) :
    (pollLoop step₁ e gs₁).2 = (pollLoop step₂ e gs₂).2 := by
  by_cases h : e < 3000
  · have ih := pollLoop_iterations_indep (e + 10) step₁ step₂
      (step₁ gs₁) (step₂ gs₂)
    rw [pollLoop_pos step₁ e gs₁ h, pollLoop_pos step₂ e gs₂ h]
    simpa using ih
  · rw [pollLoop_neg step₁ e gs₁ h, pollLoop_neg step₂ e gs₂ h]
termination_by 3000 - e
decreasing_by simp_wf; omega

/-- C10: the polling loop of `ArcOdom::calibrate` runs the same number of
iterations whatever the gyro states and whatever the loop body does to them —
its exit is decided by the 3000 ms timer alone, with no early return when
every gyro is already calibrated. -/
theorem C10_poll_loop_exit_is_timer_only (step₁ step₂ : List GyroC → List GyroC)
    (gs₁ gs₂ : List GyroC) (e : ℕ) :
    (pollLoop step₁ e gs₁).2 = (pollLoop step₂ e gs₂).2 :=
  pollLoop_iterations_indep e step₁ step₂ gs₁ gs₂
